import Mathlib

/-!
Shallow embedding of the fleet lead scoring engine
(`src/scripts/fleet_lead_scorer.py`).

Modelling conventions:
* Python ints are `Int`; latitude, longitude and population density
  (Python floats compared only against numeric constants) are `ℚ`.
* `get_nearest_coast_distance` computes a haversine distance with
  floating-point trigonometry; it is passed to the engine as an opaque
  oracle `coast_distance : ℚ → ℚ → ℚ`, since every property proved here
  holds for all possible distance values.
* The external zip lookup (`get_zip_data`) is effectful (it may consult
  the `uszipcode` backend); the engine is parametrised by a lookup
  function `String → Option ZipData`.  The static fallback table
  `MOCK_ZIP_DATA` from the source is embedded; concrete witness runs use
  a small lookup with integer-valued coordinates, because rational
  literals built by `Rat.ofScientific` do not reduce in the kernel.
* Python's `str.strip` is modelled by the structurally recursive
  `pyStrip` (drop leading and trailing whitespace characters).
* Python's `list.sort` is a stable sort; it is modelled by
  `List.insertionSort` with the non-strict descending comparator
  `keyDesc`, which is proved below to be sorted, a permutation, and
  stable — the three properties that determine Python's sort uniquely.
-/

/-- Salt belt states (road salt corrosion risk). -/
def SALT_BELT_STATES : List String :=
  ["CT", "DC", "DE", "IL", "IN", "IA", "KY", "ME", "MD", "MA",
   "MI", "MN", "MO", "NH", "NJ", "NY", "OH", "PA", "RI", "VT",
   "VA", "WV", "WI"]

/-- Coastal states with marine layer corrosion risk. -/
def COASTAL_STATES : List String :=
  ["CA", "OR", "WA", "TX", "LA", "MS", "AL", "FL", "GA", "SC",
   "NC", "VA", "MD", "DE", "NJ", "NY", "CT", "RI", "MA", "NH", "ME"]

/-- Mountainous states with elevation variance. -/
def MOUNTAINOUS_STATES : List String :=
  ["CO", "WV", "UT", "NV", "ID", "MT", "WA", "OR", "CA", "AZ", "NM", "WY"]

/-- High-elevation cities (zip code 3-character front segment to average elevation in feet). -/
def HIGH_ELEVATION_PREFIXES : List (String × Int) :=
  [("800", 5280), ("801", 5500), ("802", 6000), ("803", 7000), ("804", 8000),
   ("805", 5500), ("840", 4300), ("841", 4500), ("871", 5300), ("872", 6000),
   ("891", 4500), ("590", 3500), ("591", 4000), ("820", 6000), ("821", 6500),
   ("822", 7000), ("831", 4500), ("832", 5000), ("833", 5500)]

/-- Below this latitude there is heat risk. -/
def HEAT_RISK_LATITUDE : ℚ := 35

/-- Above this latitude there is cold start risk. -/
def COLD_RISK_LATITUDE : ℚ := 42

/-- State-level default elevations used by `get_elevation_estimate`. -/
def state_elevations : List (String × Int) :=
  [("CO", 5500), ("UT", 4500), ("WY", 5500), ("NM", 5000), ("NV", 4000),
   ("AZ", 3500), ("ID", 4000), ("MT", 3500), ("WA", 1500), ("OR", 1500),
   ("CA", 1000), ("WV", 1500)]

/-- Estimate elevation based on the first three characters of the zip code,
falling back to a state-level default, then to 500 feet. -/
def get_elevation_estimate (zip_code state : String) : Int :=
  match HIGH_ELEVATION_PREFIXES.lookup (zip_code.take 3) with
  | some e => e
  | none => (state_elevations.lookup state).getD 500

/-- Individual risk factor scores. -/
structure RiskFactors where
  corrosion : Int
  coastal : Int
  urban_wear : Int
  rural_road : Int
  terrain : Int
  heat : Int
  cold : Int
deriving DecidableEq, Repr

/-- The attribute record produced by the zip lookup (the dict returned by
`get_zip_data`): city, state, latitude, longitude, population density. -/
structure ZipData where
  city : String
  state : String
  lat : ℚ
  lon : ℚ
  pop_density : ℚ
deriving DecidableEq, Repr

/-- Complete lead scoring result. -/
structure FleetLeadScore where
  zip_code : String
  city : String
  state : String
  latitude : ℚ
  longitude : ℚ
  population_density : ℚ
  total_severity_score : Int
  risk_factors : RiskFactors
  primary_risk : String
  secondary_risks : List String
  risk_bucket : String
  recommended_upsell : List String
  lead_priority : String
deriving DecidableEq, Repr

/-- Heuristic 1: rust belt and coastal corrosion.  `distance_to_coast`
stands for `get_nearest_coast_distance(lat, lon)`.
Returns `(salt_belt_score, coastal_score)`. -/
def calculate_corrosion_score (state : String) (distance_to_coast : ℚ) : Int × Int :=
  (if state ∈ SALT_BELT_STATES then 30 else 0,
   if state ∈ COASTAL_STATES then
     if distance_to_coast < 20 then 15
     else if distance_to_coast < 50 then 8
     else 0
   else 0)

/-- Heuristic 2: stop-and-go urban wear.  Returns `(urban_score, rural_score)`.
The branch order of the source's if/elif chain is kept exactly, including
the final `pop_density < 100` branch that is shadowed by `pop_density < 500`. -/
def calculate_density_score (pop_density : ℚ) : Int × Int :=
  if 10000 < pop_density then (30, 0)
  else if 5000 < pop_density then (25, 0)
  else if 2000 < pop_density then (15, 0)
  else if pop_density < 500 then (0, 10)
  else if pop_density < 100 then (0, 15)
  else (0, 0)

/-- Heuristic 3: mountainous terrain stress. -/
def calculate_terrain_score (zip_code state : String) : Int :=
  if state ∈ MOUNTAINOUS_STATES then
    let elevation := get_elevation_estimate zip_code state
    if 7000 < elevation then 25
    else if 5000 < elevation then 20
    else if 3000 < elevation then 12
    else if 2000 < elevation then 8
    else 0
  else 0

/-- Heuristic 4: thermal stress.  Returns `(heat_score, cold_score)`. -/
def calculate_thermal_score (lat : ℚ) : Int × Int :=
  (if lat < 30 then 20 else if lat < HEAT_RISK_LATITUDE then 12 else 0,
   if 45 < lat then 20 else if COLD_RISK_LATITUDE < lat then 12 else 0)

/-- Categorize into a marketing bucket. -/
def determine_risk_bucket (factors : RiskFactors) : String :=
  let corrosion_total := factors.corrosion + factors.coastal
  let urban_total := factors.urban_wear
  let terrain_total := factors.terrain
  let thermal_total := factors.heat + factors.cold
  let max_score := max corrosion_total (max urban_total (max terrain_total thermal_total))
  if max_score = corrosion_total ∧ 25 ≤ corrosion_total then "salt_belt"
  else if max_score = terrain_total ∧ 15 ≤ terrain_total then "transmission_cooker"
  else if max_score = urban_total ∧ 20 ≤ urban_total then "city_grinder"
  else if max_score = thermal_total ∧ 15 ≤ thermal_total then "thermal_stress"
  else "general"

/-- The concatenation, in fixed rule order, of the item lists of the
triggered upsell rules. -/
def triggered_upsell_items (factors : RiskFactors) : List String :=
  (if 25 ≤ factors.corrosion then
    ["Undercoating", "Brake Line Inspection", "Caliper Check"] else []) ++
  (if 10 ≤ factors.coastal then
    ["Rust Proofing", "Marine Grade Lubricants"] else []) ++
  (if 20 ≤ factors.urban_wear then
    ["Brake Rotors", "Starter System Check", "Door Hinge Lube"] else []) ++
  (if 10 ≤ factors.rural_road then
    ["Suspension Inspection", "Alignment Check", "Skid Plate"] else []) ++
  (if 15 ≤ factors.terrain then
    ["Transmission Flush", "Coolant Check", "Brake Fluid Flush"] else []) ++
  (if 12 ≤ factors.heat then
    ["Battery Load Test", "AC System Check", "Rubber Bushing Inspection"] else []) ++
  (if 12 ≤ factors.cold then
    ["Block Heater", "Battery Replacement", "Alternator Test"] else [])

/-- Deduplicate while preserving first-seen order, skipping anything in
`seen` (the accumulator of already-emitted items). -/
def dedupe_keep_first (seen : List String) : List String → List String
  | [] => []
  | x :: xs =>
    if x ∈ seen then dedupe_keep_first seen xs
    else x :: dedupe_keep_first (x :: seen) xs

/-- Generate upsell recommendations based on the risk profile. -/
def get_recommended_upsells (factors : RiskFactors) (bucket : String) : List String :=
  (dedupe_keep_first [] (triggered_upsell_items factors)).take 6

/-- Descending comparison by an integer key; models the relation used by
Python's stable `list.sort(key=..., reverse=True)`. -/
def keyDesc {α : Type} (key : α → Int) : α → α → Prop :=
  fun a b => key b ≤ key a

instance keyDesc.decidableRel {α : Type} (key : α → Int) : DecidableRel (keyDesc key) :=
  fun a b => inferInstanceAs (Decidable (key b ≤ key a))

instance keyDesc.isTotal {α : Type} (key : α → Int) : IsTotal α (keyDesc key) :=
  ⟨fun a b => le_total (key b) (key a)⟩

instance keyDesc.isTrans {α : Type} (key : α → Int) : IsTrans α (keyDesc key) :=
  ⟨fun _ _ _ hab hbc => le_trans hbc hab⟩

/-- The six (score, label) pairs ranked by `get_primary_risk`, in the fixed
order they are listed in the source. -/
def risk_score_pairs (factors : RiskFactors) : List (Int × String) :=
  [(factors.corrosion + factors.coastal, "Corrosion"),
   (factors.urban_wear, "Stop-and-Go Wear"),
   (factors.terrain, "Terrain Stress"),
   (factors.heat, "Heat Stress"),
   (factors.cold, "Cold Start Risk"),
   (factors.rural_road, "Rural Road Wear")]

/-- Determine primary and secondary risk labels. -/
def get_primary_risk (factors : RiskFactors) : String × List String :=
  let risk_scores := List.insertionSort (keyDesc Prod.fst) (risk_score_pairs factors)
  let top := risk_scores.headD (0, "")
  (if 0 < top.1 then top.2 else "Low Risk",
   ((risk_scores.drop 1).take 2).filterMap fun x => if 5 ≤ x.1 then some x.2 else none)

/-- Calculate the complete lead score for a zip code, given the lookup
capability and the coast-distance oracle. -/
def score_zip (get_zip_data : String → Option ZipData)
    (coast_distance : ℚ → ℚ → ℚ) (zip_code : String) : Option FleetLeadScore :=
  match get_zip_data zip_code with
  | none => none
  | some zip_data =>
    let cc := calculate_corrosion_score zip_data.state
      (coast_distance zip_data.lat zip_data.lon)
    let ur := calculate_density_score zip_data.pop_density
    let terrain := calculate_terrain_score zip_code zip_data.state
    let hc := calculate_thermal_score zip_data.lat
    let factors : RiskFactors := ⟨cc.1, cc.2, ur.1, ur.2, terrain, hc.1, hc.2⟩
    let total := min 100 (cc.1 + cc.2 + ur.1 + ur.2 + terrain + hc.1 + hc.2)
    let bucket := determine_risk_bucket factors
    let pr := get_primary_risk factors
    let upsells := get_recommended_upsells factors bucket
    let priority := if 60 ≤ total then "hot" else if 35 ≤ total then "warm" else "cold"
    some ⟨zip_code, zip_data.city, zip_data.state, zip_data.lat, zip_data.lon,
      zip_data.pop_density, total, factors, pr.1, pr.2, bucket, upsells, priority⟩

/-- Remove leading and trailing whitespace, modelling Python's `str.strip()`
as a structurally recursive function on the character list. -/
def pyStrip (s : String) : String :=
  ⟨((s.data.dropWhile Char.isWhitespace).reverse.dropWhile Char.isWhitespace).reverse⟩

/-- Score multiple zip codes and sort by severity, descending and stable. -/
def score_multiple (get_zip_data : String → Option ZipData)
    (coast_distance : ℚ → ℚ → ℚ) (zip_codes : List String) : List FleetLeadScore :=
  let results := zip_codes.filterMap fun zc => score_zip get_zip_data coast_distance (pyStrip zc)
  List.insertionSort (keyDesc FleetLeadScore.total_severity_score) results

/-- The static fallback zip table from the source. -/
def MOCK_ZIP_DATA : List (String × ZipData) :=
  [("60601", ⟨"Chicago", "IL", 41.8819, -87.6278, 12000⟩),
   ("10001", ⟨"New York", "NY", 40.7484, -73.9967, 27000⟩),
   ("90210", ⟨"Beverly Hills", "CA", 34.0901, -118.4065, 5200⟩),
   ("80202", ⟨"Denver", "CO", 39.7541, -104.9927, 4500⟩),
   ("98101", ⟨"Seattle", "WA", 47.6097, -122.3331, 8500⟩),
   ("33101", ⟨"Miami", "FL", 25.7617, -80.1918, 11000⟩),
   ("48201", ⟨"Detroit", "MI", 42.3314, -83.0458, 5000⟩),
   ("02101", ⟨"Boston", "MA", 42.3601, -71.0589, 13000⟩),
   ("75201", ⟨"Dallas", "TX", 32.7767, -96.7970, 3500⟩),
   ("85001", ⟨"Phoenix", "AZ", 33.4484, -112.0740, 3000⟩),
   ("55401", ⟨"Minneapolis", "MN", 44.9778, -93.2650, 7000⟩),
   ("84101", ⟨"Salt Lake City", "UT", 40.7608, -111.8910, 3200⟩),
   ("15201", ⟨"Pittsburgh", "PA", 40.4406, -79.9959, 5500⟩),
   ("44101", ⟨"Cleveland", "OH", 41.4993, -81.6944, 4800⟩),
   ("14201", ⟨"Buffalo", "NY", 42.8864, -78.8784, 6500⟩)]

/-- The lookup capability backed only by the static fallback table. -/
def mock_get_zip_data (zip_code : String) : Option ZipData :=
  MOCK_ZIP_DATA.lookup zip_code

/-- A fixed coast-distance oracle for concrete runs (the exact value is
irrelevant to every claim checked on non-coastal states). -/
def far_coast : ℚ → ℚ → ℚ := fun _ _ => 1000

/-- The lead-priority tier as a pure threshold function of the total
severity score, as the specification states it. -/
def lead_priority_of (total : Int) : String :=
  if 60 ≤ total then "hot" else if 35 ≤ total then "warm" else "cold"

/-- Numeric rank of a lead-priority tier, used to state monotonicity. -/
def priority_rank (p : String) : Nat :=
  if p = "hot" then 2 else if p = "warm" then 1 else 0

/-- The risk-bucket dominance rule exactly as the specification words it:
four grouped totals, their maximum, and a fixed priority order
(corrosion, terrain, urban, thermal), each with its own activation floor. -/
def risk_bucket_from_spec (factors : RiskFactors) : String :=
  let corrosion_total := factors.corrosion + factors.coastal
  let urban_total := factors.urban_wear
  let terrain_total := factors.terrain
  let thermal_total := factors.heat + factors.cold
  let max_score := max corrosion_total (max urban_total (max terrain_total thermal_total))
  if corrosion_total = max_score ∧ 25 ≤ corrosion_total then "salt_belt"
  else if terrain_total = max_score ∧ 15 ≤ terrain_total then "transmission_cooker"
  else if urban_total = max_score ∧ 20 ≤ urban_total then "city_grinder"
  else if thermal_total = max_score ∧ 15 ≤ thermal_total then "thermal_stress"
  else "general"

/-- Concrete zip attributes for witness runs (integer-valued coordinates
so that the kernel can evaluate every comparison). -/
def demo_zip : ZipData := ⟨"Chicago", "IL", 41, -87, 12000⟩

/-- A concrete lookup capability resolving only "60601". -/
def demo_lookup : String → Option ZipData :=
  fun z => if z = "60601" then some demo_zip else none

/-- The record the engine produces for `demo_zip` (checked by `decide`
in the witness theorems). -/
def demo_record : FleetLeadScore :=
  ⟨"60601", "Chicago", "IL", 41, -87, 12000, 60,
   ⟨30, 0, 30, 0, 0, 0, 0⟩, "Corrosion", ["Stop-and-Go Wear"], "salt_belt",
   ["Undercoating", "Brake Line Inspection", "Caliper Check", "Brake Rotors",
    "Starter System Check", "Door Hinge Lube"], "hot"⟩

/-- Bounds of the corrosion heuristic: salt score in [0, 30], coastal
score in [0, 15]. -/
theorem corrosion_score_bounds (state : String) (d : ℚ) :
    0 ≤ (calculate_corrosion_score state d).1 ∧ (calculate_corrosion_score state d).1 ≤ 30 ∧
    0 ≤ (calculate_corrosion_score state d).2 ∧ (calculate_corrosion_score state d).2 ≤ 15 := by
  simp only [calculate_corrosion_score]
  split_ifs <;> norm_num

/-- Bounds of the density heuristic: urban score in [0, 30], rural score
in [0, 15]. -/
theorem density_score_bounds (pop : ℚ) :
    0 ≤ (calculate_density_score pop).1 ∧ (calculate_density_score pop).1 ≤ 30 ∧
    0 ≤ (calculate_density_score pop).2 ∧ (calculate_density_score pop).2 ≤ 15 := by
  simp only [calculate_density_score]
  split_ifs <;> norm_num

/-- Bounds of the terrain heuristic: score in [0, 25]. -/
theorem terrain_score_bounds (zip_code state : String) :
    0 ≤ calculate_terrain_score zip_code state ∧ calculate_terrain_score zip_code state ≤ 25 := by
  simp only [calculate_terrain_score]
  split_ifs <;> norm_num

/-- Bounds of the thermal heuristic: heat and cold scores in [0, 20]. -/
theorem thermal_score_bounds (lat : ℚ) :
    0 ≤ (calculate_thermal_score lat).1 ∧ (calculate_thermal_score lat).1 ≤ 20 ∧
    0 ≤ (calculate_thermal_score lat).2 ∧ (calculate_thermal_score lat).2 ≤ 20 := by
  simp only [calculate_thermal_score]
  split_ifs <;> norm_num

/-- Heat is zero whenever the latitude is not below 35. -/
theorem heat_eq_zero_of_not_lt (lat : ℚ) (h : ¬ lat < 35) :
    (calculate_thermal_score lat).1 = 0 := by
  simp only [calculate_thermal_score, HEAT_RISK_LATITUDE]
  rw [if_neg (by intro h30; exact h (by linarith)), if_neg h]

/-- Cold is zero whenever the latitude is not above 42. -/
theorem cold_eq_zero_of_not_lt (lat : ℚ) (h : ¬ 42 < lat) :
    (calculate_thermal_score lat).2 = 0 := by
  simp only [calculate_thermal_score, COLD_RISK_LATITUDE]
  rw [if_neg (by intro h45; exact h (by linarith)), if_neg h]

/-- C9: every sub-score produced by the heuristic evaluators is
non-negative and within its documented maximum: corrosion ≤ 30,
coastal ≤ 15, urban_wear ≤ 30, rural_road ≤ 15, terrain ≤ 25,
heat ≤ 20, cold ≤ 20. -/
theorem heuristic_subscore_bounds (state zip_code : String) (d pop lat : ℚ) :
    0 ≤ (calculate_corrosion_score state d).1 ∧ (calculate_corrosion_score state d).1 ≤ 30 ∧
    0 ≤ (calculate_corrosion_score state d).2 ∧ (calculate_corrosion_score state d).2 ≤ 15 ∧
    0 ≤ (calculate_density_score pop).1 ∧ (calculate_density_score pop).1 ≤ 30 ∧
    0 ≤ (calculate_density_score pop).2 ∧ (calculate_density_score pop).2 ≤ 15 ∧
    0 ≤ calculate_terrain_score zip_code state ∧ calculate_terrain_score zip_code state ≤ 25 ∧
    0 ≤ (calculate_thermal_score lat).1 ∧ (calculate_thermal_score lat).1 ≤ 20 ∧
    0 ≤ (calculate_thermal_score lat).2 ∧ (calculate_thermal_score lat).2 ≤ 20 := by
  obtain ⟨c1, c2, c3, c4⟩ := corrosion_score_bounds state d
  obtain ⟨d1, d2, d3, d4⟩ := density_score_bounds pop
  obtain ⟨t1, t2⟩ := terrain_score_bounds zip_code state
  obtain ⟨h1, h2, h3, h4⟩ := thermal_score_bounds lat
  exact ⟨c1, c2, c3, c4, d1, d2, d3, d4, t1, t2, h1, h2, h3, h4⟩

/-- C10: for every latitude at most one thermal sub-score is nonzero —
heat is positive only below latitude 35, cold only above latitude 42,
so the two are never both positive. -/
theorem thermal_scores_mutually_exclusive (lat : ℚ) :
    ((calculate_thermal_score lat).1 = 0 ∨ lat < 35) ∧
    ((calculate_thermal_score lat).2 = 0 ∨ 42 < lat) ∧
    ((calculate_thermal_score lat).1 = 0 ∨ (calculate_thermal_score lat).2 = 0) := by
  refine ⟨?_, ?_, ?_⟩
  · by_cases h : lat < 35
    · exact Or.inr h
    · exact Or.inl (heat_eq_zero_of_not_lt lat h)
  · by_cases h : 42 < lat
    · exact Or.inr h
    · exact Or.inl (cold_eq_zero_of_not_lt lat h)
  · by_cases h : lat < 35
    · exact Or.inr (cold_eq_zero_of_not_lt lat (by linarith))
    · exact Or.inl (heat_eq_zero_of_not_lt lat h)

/-- C3: at population density 50 the engine returns a rural score of 10,
not the 15 the spec describes — the `pop_density < 100` branch of the
source's if/elif chain is shadowed by the earlier `pop_density < 500`
branch, so the rural score can only ever be 0 or 10. -/
theorem calculate_density_score_rural_dead_branch :
    calculate_density_score 50 = (0, 10) ∧
    ∀ pop : ℚ, (calculate_density_score pop).2 = 0 ∨ (calculate_density_score pop).2 = 10 := by
  refine ⟨by decide, ?_⟩
  intro pop
  simp only [calculate_density_score]
  split_ifs <;> first | (left; rfl) | (right; rfl) | (exfalso; linarith)

/-- C2: the risk bucket computed by the engine agrees everywhere with the
dominance rule as the specification words it — grouped totals
corrosion+coastal, urban, terrain, heat+cold, maximum of the four, and the
fixed tie-breaking priority order corrosion, terrain, urban, thermal with
activation floors 25, 15, 20, 15. -/
theorem determine_risk_bucket_matches_spec (factors : RiskFactors) :
    determine_risk_bucket factors = risk_bucket_from_spec factors := by
  simp only [determine_risk_bucket, risk_bucket_from_spec]
  split_ifs <;> first | rfl | omega

/-- The first-seen deduplication produces a list with no duplicates and
no element of the accumulator. -/
theorem dedupe_keep_first_nodup (l : List String) : ∀ seen : List String,
    (∀ x ∈ dedupe_keep_first seen l, x ∉ seen) ∧ (dedupe_keep_first seen l).Nodup := by
  induction l with
  | nil => intro seen; simp [dedupe_keep_first]
  | cons x xs ih =>
    intro seen
    by_cases hx : x ∈ seen
    · simpa [dedupe_keep_first, hx] using ih seen
    · simp only [dedupe_keep_first, if_neg hx]
      obtain ⟨ih1, ih2⟩ := ih (x :: seen)
      constructor
      · intro y hy
        rcases List.mem_cons.mp hy with rfl | hy
        · exact hx
        · exact fun hs => ih1 y hy (List.mem_cons_of_mem _ hs)
      · refine List.nodup_cons.mpr ⟨?_, ih2⟩
        intro hxin
        exact ih1 x hxin (List.mem_cons_self _ _)

/-- C6: the recommended upsell list is the concatenation, in fixed rule
order, of the item lists of exactly the triggered rules, deduplicated
preserving first-seen order and truncated to the first 6; hence it has
length at most 6 and no duplicate entries. -/
theorem get_recommended_upsells_spec (factors : RiskFactors) (bucket : String) :
    get_recommended_upsells factors bucket =
      (dedupe_keep_first [] (triggered_upsell_items factors)).take 6 ∧
    (get_recommended_upsells factors bucket).length ≤ 6 ∧
    (get_recommended_upsells factors bucket).Nodup := by
  refine ⟨rfl, ?_, ?_⟩
  · exact List.length_take_le 6 _
  · exact ((dedupe_keep_first_nodup (triggered_upsell_items factors) []).2).sublist
      (List.take_sublist 6 _)

/-- Inserting `a` with the descending comparator leaves the subsequence of
any fixed key value intact, except that `a` is prepended to its own key
class (all strictly greater keys precede the insertion point). -/
theorem filter_orderedInsert_key {α : Type} (key : α → Int) (t : Int) (a : α)
    (l : List α) :
    (List.orderedInsert (keyDesc key) a l).filter (fun x => decide (key x = t)) =
      if key a = t then a :: l.filter (fun x => decide (key x = t))
      else l.filter (fun x => decide (key x = t)) := by
  induction l with
  | nil => by_cases h : key a = t <;> simp [List.orderedInsert, h]
  | cons b l ih =>
    by_cases hab : keyDesc key a b
    · rw [List.orderedInsert, if_pos hab]
      by_cases h : key a = t <;> by_cases hb : key b = t <;>
        simp [List.filter_cons, h, hb]
    · rw [List.orderedInsert, if_neg hab]
      simp only [keyDesc] at hab
      by_cases h : key a = t
      · have hb : ¬ key b = t := by omega
        simp [List.filter_cons, h, hb, ih]
      · by_cases hb : key b = t <;> simp [List.filter_cons, h, hb, ih]

/-- Stability of the modelled stable sort: for every key value `t`, the
subsequence of elements with key `t` is unchanged by sorting. -/
theorem filter_insertionSort_key {α : Type} (key : α → Int) (t : Int)
    (l : List α) :
    (List.insertionSort (keyDesc key) l).filter (fun x => decide (key x = t)) =
      l.filter (fun x => decide (key x = t)) := by
  induction l with
  | nil => rfl
  | cons a l ih =>
    rw [List.insertionSort, filter_orderedInsert_key]
    by_cases h : key a = t <;> simp [List.filter_cons, h, ih]

/-- C7: the six (score, label) pairs of `get_primary_risk` are
stable-sorted descending by score — the sorted list is a permutation of
the fixed pair list, is pairwise non-increasing, and the subsequence of
any fixed score value keeps the fixed listing order, so on equal scores
the pair listed earlier wins the earlier rank; the primary risk is the
rank-0 label if its score is positive and "Low Risk" otherwise, and the
secondary risks are the rank-1 and rank-2 labels with score at least 5. -/
theorem get_primary_risk_spec (factors : RiskFactors) :
    List.Sorted (fun a b : Int × String => b.1 ≤ a.1)
      (List.insertionSort (keyDesc Prod.fst) (risk_score_pairs factors)) ∧
    List.Perm (List.insertionSort (keyDesc Prod.fst) (risk_score_pairs factors))
      (risk_score_pairs factors) ∧
    (∀ t : Int,
      (List.insertionSort (keyDesc Prod.fst) (risk_score_pairs factors)).filter
          (fun x => decide (x.1 = t)) =
        (risk_score_pairs factors).filter (fun x => decide (x.1 = t))) ∧
    (get_primary_risk factors).1 =
      (if 0 < ((List.insertionSort (keyDesc Prod.fst) (risk_score_pairs factors)).headD
          (0, "")).1
       then ((List.insertionSort (keyDesc Prod.fst) (risk_score_pairs factors)).headD
          (0, "")).2
       else "Low Risk") ∧
    (get_primary_risk factors).2 =
      (((List.insertionSort (keyDesc Prod.fst) (risk_score_pairs factors)).drop 1).take 2).filterMap
        (fun x => if 5 ≤ x.1 then some x.2 else none) :=
  ⟨List.sorted_insertionSort (keyDesc Prod.fst) (risk_score_pairs factors),
   List.perm_insertionSort (keyDesc Prod.fst) (risk_score_pairs factors),
   fun t => filter_insertionSort_key Prod.fst t (risk_score_pairs factors),
   rfl, rfl⟩

/-- C4: the batch output is sorted non-increasing by total severity
score, and for every score value the subsequence of records with that
score is exactly the subsequence of the pre-sort sequence (the scored
records in input order), i.e. ties retain relative input order. -/
theorem score_multiple_sorted_and_stable (lookup : String → Option ZipData)
    (cd : ℚ → ℚ → ℚ) (zip_codes : List String) :
    List.Sorted (fun a b : FleetLeadScore =>
        b.total_severity_score ≤ a.total_severity_score)
      (score_multiple lookup cd zip_codes) ∧
    ∀ t : Int,
      (score_multiple lookup cd zip_codes).filter
          (fun x => decide (x.total_severity_score = t)) =
        (zip_codes.filterMap fun zc => score_zip lookup cd (pyStrip zc)).filter
          (fun x => decide (x.total_severity_score = t)) :=
  ⟨List.sorted_insertionSort (keyDesc FleetLeadScore.total_severity_score) _,
   fun t => filter_insertionSort_key FleetLeadScore.total_severity_score t _⟩

/-- C1: the total severity score equals the sum of the seven sub-scores
capped at 100, and lies in [0, 100]. -/
theorem score_zip_total_severity_capped (lookup : String → Option ZipData)
    (cd : ℚ → ℚ → ℚ) (z : String) (r : FleetLeadScore)
    (h : score_zip lookup cd z = some r) :
    r.total_severity_score =
      min 100 (r.risk_factors.corrosion + r.risk_factors.coastal +
        r.risk_factors.urban_wear + r.risk_factors.rural_road +
        r.risk_factors.terrain + r.risk_factors.heat + r.risk_factors.cold) ∧
    0 ≤ r.total_severity_score ∧ r.total_severity_score ≤ 100 := by
  unfold score_zip at h
  cases hl : lookup z with
  | none => rw [hl] at h; cases h
  | some d =>
    rw [hl] at h
    dsimp only at h
    injection h with h
    subst h
    dsimp only
    refine ⟨rfl, ?_, min_le_left _ _⟩
    obtain ⟨c1, -, c3, -⟩ := corrosion_score_bounds d.state (cd d.lat d.lon)
    obtain ⟨d1, -, d3, -⟩ := density_score_bounds d.pop_density
    obtain ⟨t1, -⟩ := terrain_score_bounds z d.state
    obtain ⟨h1, -, h3, -⟩ := thermal_score_bounds d.lat
    omega

/-- Witness for C1 at a concrete run. -/
theorem score_zip_total_severity_capped_witness :
    score_zip demo_lookup far_coast "60601" = some demo_record ∧
    (demo_record.total_severity_score =
      min 100 (demo_record.risk_factors.corrosion + demo_record.risk_factors.coastal +
        demo_record.risk_factors.urban_wear + demo_record.risk_factors.rural_road +
        demo_record.risk_factors.terrain + demo_record.risk_factors.heat +
        demo_record.risk_factors.cold) ∧
     0 ≤ demo_record.total_severity_score ∧ demo_record.total_severity_score ≤ 100) :=
  ⟨by decide,
   score_zip_total_severity_capped demo_lookup far_coast "60601" demo_record (by decide)⟩

/-- Characterization of the threshold function behind the lead priority. -/
theorem lead_priority_of_iffs (T : Int) :
    (lead_priority_of T = "hot" ↔ 60 ≤ T) ∧
    (lead_priority_of T = "warm" ↔ 35 ≤ T ∧ T < 60) ∧
    (lead_priority_of T = "cold" ↔ T < 35) := by
  unfold lead_priority_of
  refine ⟨?_, ?_, ?_⟩ <;> split_ifs with h1 h2 <;> simp <;> omega

/-- The lead-priority tier is monotone in the total severity score. -/
theorem priority_rank_monotone (t₁ t₂ : Int) (hle : t₁ ≤ t₂) :
    priority_rank (lead_priority_of t₁) ≤ priority_rank (lead_priority_of t₂) := by
  unfold lead_priority_of priority_rank
  split_ifs <;> first | decide | omega | simp_all

/-- C5: the lead priority of every produced record is the pure threshold
function of its total severity score — "hot" iff the total is at least
60, "warm" iff it is in [35, 60), "cold" iff it is below 35 — and that
threshold function is monotone. -/
theorem score_zip_lead_priority_thresholds (lookup : String → Option ZipData)
    (cd : ℚ → ℚ → ℚ) (z : String) (r : FleetLeadScore)
    (h : score_zip lookup cd z = some r) :
    r.lead_priority = lead_priority_of r.total_severity_score ∧
    (r.lead_priority = "hot" ↔ 60 ≤ r.total_severity_score) ∧
    (r.lead_priority = "warm" ↔
      35 ≤ r.total_severity_score ∧ r.total_severity_score < 60) ∧
    (r.lead_priority = "cold" ↔ r.total_severity_score < 35) ∧
    (∀ t₁ t₂ : Int, t₁ ≤ t₂ →
      priority_rank (lead_priority_of t₁) ≤ priority_rank (lead_priority_of t₂)) := by
  unfold score_zip at h
  cases hl : lookup z with
  | none => rw [hl] at h; cases h
  | some d =>
    rw [hl] at h
    dsimp only at h
    injection h with h
    subst h
    dsimp only
    exact ⟨rfl, (lead_priority_of_iffs _).1, (lead_priority_of_iffs _).2.1,
      (lead_priority_of_iffs _).2.2, priority_rank_monotone⟩

/-- Witness for C5 at a concrete run. -/
theorem score_zip_lead_priority_thresholds_witness :
    score_zip demo_lookup far_coast "60601" = some demo_record ∧
    demo_record.lead_priority = lead_priority_of demo_record.total_severity_score ∧
    (demo_record.lead_priority = "hot" ↔ 60 ≤ demo_record.total_severity_score) :=
  ⟨by decide,
   (score_zip_lead_priority_thresholds demo_lookup far_coast "60601" demo_record
      (by decide)).1,
   (score_zip_lead_priority_thresholds demo_lookup far_coast "60601" demo_record
      (by decide)).2.1⟩

/-- Filtering out the elements a partial map sends to `none` does not
change its `filterMap`. -/
theorem filterMap_eq_filterMap_filter {α β : Type} (f : α → Option β) (p : α → Bool)
    (hp : ∀ a, p a = false → f a = none) (l : List α) :
    l.filterMap f = (l.filter p).filterMap f := by
  induction l with
  | nil => rfl
  | cons a l ih =>
    cases ha : p a
    · simp [List.filterMap_cons, List.filter_cons, ha, hp a ha, ih]
    · simp [List.filterMap_cons, List.filter_cons, ha, ih]

/-- C8: a zip code whose lookup fails makes `score_zip` return the
not-found sentinel, and `score_multiple` scores exactly the codes whose
(stripped) lookup succeeds — unresolvable codes are omitted entirely. -/
theorem score_zip_not_found_skipped (lookup : String → Option ZipData)
    (cd : ℚ → ℚ → ℚ) (z : String) (zip_codes : List String)
    (h : lookup z = none) :
    score_zip lookup cd z = none ∧
    score_multiple lookup cd zip_codes =
      score_multiple lookup cd
        (zip_codes.filter fun w => (lookup (pyStrip w)).isSome) := by
  constructor
  · unfold score_zip
    rw [h]
  · have hp : ∀ a, ((lookup (pyStrip a)).isSome = false) →
        score_zip lookup cd (pyStrip a) = none := by
      intro a ha
      cases hl : lookup (pyStrip a) with
      | none => unfold score_zip; rw [hl]
      | some d => rw [hl] at ha; simp at ha
    unfold score_multiple
    rw [filterMap_eq_filterMap_filter _ _ hp zip_codes]

/-- Witness for C8 at a concrete run. -/
theorem score_zip_not_found_skipped_witness :
    demo_lookup "00000" = none ∧
    (score_zip demo_lookup far_coast "00000" = none ∧
     score_multiple demo_lookup far_coast ["60601", "00000"] =
       score_multiple demo_lookup far_coast
         (["60601", "00000"].filter fun w => (demo_lookup (pyStrip w)).isSome)) :=
  ⟨by decide,
   score_zip_not_found_skipped demo_lookup far_coast "00000" ["60601", "00000"]
     (by decide)⟩
